import Mathlib

/-
Verification of the core semantics of the SSSOM custom Java generator
(src/linkml/custom-javagen.py).  The generator renders, from the SSSOM
LinkML schema, the Mapping record class together with several behaviours
embedded in its Jinja template:

  * the field type chain (template lines 63-69), modelled by javaFieldType;
  * the constrained setter (template lines 79-91), modelled by setConstrained;
  * the lazy collection and map accessors (template lines 103-108 and
    122-127), modelled by Mapping.getAuthorId and Mapping.getExtensions;
  * isUnmapped (template lines 186-188);
  * invert with an explicit predicate (template lines 211-229) and the
    automatic invert (template lines 294-301), modelled by Mapping.invert
    and Mapping.invertAuto;
  * the canonical S-expression encoder toSExpr (template lines 236-282).

The Mapping structure below is the instantiation of the template over a
representative slice of the SSSOM Mapping class slots, covering every
syntactic category the template distinguishes: plain string slots, enum
slots, a date slot, Double slots, multivalued string slots, the excluded
record_id and mapping_cardinality slots, and the extensions map.  Field
declaration order matches the slot order used by the encoder loop.
-/

/-- Modelled from the spec: the EntityType enumeration referenced from the
template (range entity_type_enum) is generated elsewhere in the repository;
only its existence and a textual form are needed here. -/
inductive EntityType where
  | owlClass
  | owlObjectProperty
  | rdfsLiteral
  | skosConcept
deriving DecidableEq, Repr

/-- Textual form of an EntityType value, standing for the Java
String.valueOf of the enum constant. -/
def EntityType.javaString : EntityType → String
  | .owlClass => "OWL_CLASS"
  | .owlObjectProperty => "OWL_OBJECT_PROPERTY"
  | .rdfsLiteral => "RDFS_LITERAL"
  | .skosConcept => "SKOS_CONCEPT"

/-- Modelled from the spec: the PredicateModifier enumeration (range
predicate_modifier_enum) is generated elsewhere in the repository. -/
inductive PredicateModifier where
  | notModifier
deriving DecidableEq, Repr

/-- Textual form of a PredicateModifier value. -/
def PredicateModifier.javaString : PredicateModifier → String
  | .notModifier => "Not"

/-- Modelled from the spec: the MappingCardinality enumeration (range
mapping_cardinality_enum) is generated elsewhere in the repository. -/
inductive MappingCardinality where
  | oneToOne
  | oneToMany
  | manyToOne
  | manyToMany
deriving DecidableEq, Repr

/-- Modelled from the spec: the fixed directional mirror table for
cardinalities (section 4.6: one-to-many becomes many-to-one; one-to-one and
many-to-many are self-inverse); the Java method lives outside the template
source. -/
def MappingCardinality.getInverse : MappingCardinality → MappingCardinality
  | .oneToOne => .oneToOne
  | .oneToMany => .manyToOne
  | .manyToOne => .oneToMany
  | .manyToMany => .manyToMany

/-- Modelled from the spec: the fixed table of known directional relations
(CommonPredicate) is maintained outside the template source; per sections
4.6 and 6 it maps each known predicate string to an invertibility flag and
an inverse predicate string.  Representative entries follow the words of
the spec: the SKOS matching predicates with broadMatch and narrowMatch as
mutual inverses and the symmetric ones as self-inverses, plus a
non-invertible entry. -/
inductive CommonPredicate where
  | owlEquivalentClass
  | rdfsSubClassOf
  | skosExactMatch
  | skosCloseMatch
  | skosBroadMatch
  | skosNarrowMatch
  | skosRelatedMatch
deriving DecidableEq, Repr

/-- Invertibility flag of a table entry; rdfs:subClassOf is recorded as
non-invertible (no standard inverse predicate exists for it). -/
def CommonPredicate.isInvertible : CommonPredicate → Bool
  | .rdfsSubClassOf => false
  | _ => true

/-- Recorded inverse predicate string of a table entry (meaningful only
when the entry is invertible). -/
def CommonPredicate.getInverse : CommonPredicate → String
  | .owlEquivalentClass => "owl:equivalentClass"
  | .rdfsSubClassOf => ""
  | .skosExactMatch => "skos:exactMatch"
  | .skosCloseMatch => "skos:closeMatch"
  | .skosBroadMatch => "skos:narrowMatch"
  | .skosNarrowMatch => "skos:broadMatch"
  | .skosRelatedMatch => "skos:relatedMatch"

/-- Lookup of a predicate string in the directional-relation table; a null
(none) predicate or an unknown string is not in the table. -/
def CommonPredicate.fromString : Option String → Option CommonPredicate
  | none => none
  | some s =>
      if s = "owl:equivalentClass" then some .owlEquivalentClass
      else if s = "rdfs:subClassOf" then some .rdfsSubClassOf
      else if s = "skos:exactMatch" then some .skosExactMatch
      else if s = "skos:closeMatch" then some .skosCloseMatch
      else if s = "skos:broadMatch" then some .skosBroadMatch
      else if s = "skos:narrowMatch" then some .skosNarrowMatch
      else if s = "skos:relatedMatch" then some .skosRelatedMatch
      else none

/-- Modelled from the spec: the Constants class is outside the template
source; the value of its NoTermFound constant is given by the isUnmapped
javadoc in the template (the special value sssom:NoTermFound). -/
def Constants.NoTermFound : String := "sssom:NoTermFound"

/-- The generated Mapping record.  Every Java reference field is nullable,
hence each field is an Option; Double-ranged slots (confidence,
similarity_score) are modelled as rationals; the date slot is modelled by
its textual value; the extensions map is modelled as an association list of
key and canonical value text, in insertion order. -/
structure Mapping where
  recordId : Option String := none
  subjectId : Option String := none
  subjectLabel : Option String := none
  subjectCategory : Option String := none
  predicateId : Option String := none
  predicateModifier : Option PredicateModifier := none
  objectId : Option String := none
  objectLabel : Option String := none
  objectCategory : Option String := none
  mappingJustification : Option String := none
  authorId : Option (List String) := none
  reviewerId : Option (List String) := none
  mappingDate : Option String := none
  confidence : Option ℚ := none
  subjectType : Option EntityType := none
  objectType : Option EntityType := none
  mappingCardinality : Option MappingCardinality := none
  similarityScore : Option ℚ := none
  similarityMeasure : Option String := none
  comment : Option String := none
  extensions : Option (List (String × String)) := none
deriving DecidableEq, Repr

/-- Template lines 186-188: a mapping is unmapped when its subject id or
its object id equals the NoTermFound constant; the Java null-safe
Constants.NoTermFound.equals(x) is false on null. -/
def Mapping.isUnmapped (m : Mapping) : Bool :=
  m.subjectId == some Constants.NoTermFound || m.objectId == some Constants.NoTermFound

/-- Template lines 211-229: inversion with an explicit predicate.  Returns
none (Java null) when the predicate is null; otherwise builds a copy with
the predicate replaced, every subject-prefixed field swapped with its
object-prefixed partner (the pairs produced by get_slot_suffixes on the
prefix subject: Id, Label, Category, Type), and the cardinality replaced by
its mirror when present. -/
def Mapping.invert (m : Mapping) (predicate : Option String) : Option Mapping :=
  match predicate with
  | none => none
  | some p =>
      some { m with
        predicateId := some p
        subjectId := m.objectId
        objectId := m.subjectId
        subjectLabel := m.objectLabel
        objectLabel := m.subjectLabel
        subjectCategory := m.objectCategory
        objectCategory := m.subjectCategory
        subjectType := m.objectType
        objectType := m.subjectType
        mappingCardinality := m.mappingCardinality.map MappingCardinality.getInverse }

/-- Template lines 294-301: automatic inversion.  Looks the current
predicate up in the directional-relation table; returns none when the
predicate is unknown or non-invertible, and otherwise delegates to invert
with the recorded inverse predicate. -/
def Mapping.invertAuto (m : Mapping) : Option Mapping :=
  match CommonPredicate.fromString m.predicateId with
  | none => none
  | some c => if c.isInvertible then m.invert (some c.getInverse) else none

/-- Template lines 103-108: the generated lazy list accessor, shown here
for the author_id slot.  The Java method mutates the field then returns it;
the model returns the value together with the post-state. -/
def Mapping.getAuthorId (m : Mapping) (set : Bool) : Option (List String) × Mapping :=
  if m.authorId.isNone && set then
    (some [], { m with authorId := some [] })
  else
    (m.authorId, m)

/-- Template lines 122-127: the lazy extensions map accessor. -/
def Mapping.getExtensions (m : Mapping) (set : Bool) :
    Option (List (String × String)) × Mapping :=
  if m.extensions.isNone && set then
    (some [], { m with extensions := some [] })
  else
    (m.extensions, m)

/-- Length-prefixed atom of the canonical S-expression format:
the byte length of the string, a colon, then the string itself. -/
def lenPrefixed (s : String) : String := toString s.length ++ ":" ++ s

/-- Length-prefixed tagged pair for a single-valued slot, template line 264. -/
def atomPair (tag v : String) : String := "(" ++ lenPrefixed tag ++ lenPrefixed v ++ ")"

/-- Segment of a single-valued string slot: empty when the field is null,
a tagged pair otherwise (template lines 244 and 258-264). -/
def optSegment (tag : String) (v : Option String) : String :=
  match v with
  | none => ""
  | some s => atomPair tag s

/-- Segment of a single-valued slot whose value is rendered through a
textual form f, as String.valueOf or the float formatter does. -/
def optSegmentBy {α : Type} (f : α → String) (tag : String) (v : Option α) : String :=
  match v with
  | none => ""
  | some x => atomPair tag (f x)

/-- Template lines 247-253: a multivalued field with more than one element
is copied and sorted; with at most one element it is used as is. -/
def sortIfMany (l : List String) : List String :=
  if 1 < l.length then List.insertionSort (fun a b => a ≤ b) l else l

/-- Segment of a multivalued slot (template lines 245-257): empty when the
field is null, otherwise a tagged group of length-prefixed elements. -/
def multiSegment (tag : String) (v : Option (List String)) : String :=
  match v with
  | none => ""
  | some l =>
      "(" ++ lenPrefixed tag ++ "(" ++ String.join ((sortIfMany l).map lenPrefixed) ++ "))"

/-- Key order on extension entries, as used by the comparator at template
line 272 (compare by key only). -/
def keyLe (a b : String × String) : Prop := a.1 ≤ b.1

instance : DecidableRel keyLe := fun a b => inferInstanceAs (Decidable (a.1 ≤ b.1))

instance : IsTotal (String × String) keyLe := ⟨fun a b => le_total a.1 b.1⟩

instance : IsTrans (String × String) keyLe := ⟨fun _ _ _ h₁ h₂ => le_trans h₁ h₂⟩

/-- Strict key order on extension entries, used to identify the sorted
entry list uniquely when keys are distinct. -/
def keyLt (a b : String × String) : Prop := a.1 < b.1

instance : IsAntisymm (String × String) keyLt := ⟨fun _ _ h₁ h₂ => (lt_asymm h₁ h₂).elim⟩

/-- Template lines 271-272: the extension entries sorted by key. -/
def sortExtensions (l : List (String × String)) : List (String × String) :=
  List.insertionSort keyLe l

/-- Encoded form of one extension entry (template line 276). -/
def extEntry (kv : String × String) : String :=
  "(" ++ lenPrefixed kv.1 ++ lenPrefixed kv.2 ++ ")"

/-- Segment of the extensions map (template lines 269-279): empty when the
map is null, otherwise a group tagged extensions holding the entries in
ascending key order. -/
def extSegment (v : Option (List (String × String))) : String :=
  match v with
  | none => ""
  | some l => "(10:extensions(" ++ String.join ((sortExtensions l).map extEntry) ++ "))"

/-- Rounding of a rational to thousandths, half up and away from zero, as
DecimalFormat with pattern #.### and RoundingMode.HALF_UP does (template
lines 237-238). -/
def roundHalfUpMilli (q : ℚ) : ℤ :=
  if q < 0 then -(⌊(-q) * 1000 + 1 / 2⌋) else ⌊q * 1000 + 1 / 2⌋

/-- Fraction digits of a thousandths remainder with trailing zeros
trimmed; fp is between 1 and 999. -/
def fracText (fp : ℕ) : String :=
  if fp % 10 ≠ 0 then toString (fp / 100) ++ toString (fp / 10 % 10) ++ toString (fp % 10)
  else if fp / 10 % 10 ≠ 0 then toString (fp / 100) ++ toString (fp / 10 % 10)
  else toString (fp / 100)

/-- Textual form of a Double-ranged value: at most three fraction digits,
half-up rounding, trailing zeros trimmed. -/
def formatDouble (q : ℚ) : String :=
  let n := roundHalfUpMilli q
  let m := n.natAbs
  let sign := if n < 0 then "-" else ""
  let ip := m / 1000
  let fp := m % 1000
  if fp = 0 then sign ++ toString ip else sign ++ toString ip ++ "." ++ fracText fp

/-- Template lines 236-282: the canonical S-expression encoder.  Fields are
emitted in slot order, skipping record_id and mapping_cardinality; a null
field contributes nothing; multivalued fields are sorted; the extensions
map comes last, sorted by key. -/
def Mapping.toSExpr (m : Mapping) : String :=
  "(7:mapping("
    ++ optSegment "subject_id" m.subjectId
    ++ optSegment "subject_label" m.subjectLabel
    ++ optSegment "subject_category" m.subjectCategory
    ++ optSegment "predicate_id" m.predicateId
    ++ optSegmentBy PredicateModifier.javaString "predicate_modifier" m.predicateModifier
    ++ optSegment "object_id" m.objectId
    ++ optSegment "object_label" m.objectLabel
    ++ optSegment "object_category" m.objectCategory
    ++ optSegment "mapping_justification" m.mappingJustification
    ++ multiSegment "author_id" m.authorId
    ++ multiSegment "reviewer_id" m.reviewerId
    ++ optSegment "mapping_date" m.mappingDate
    ++ optSegmentBy formatDouble "confidence" m.confidence
    ++ optSegmentBy EntityType.javaString "subject_type" m.subjectType
    ++ optSegmentBy EntityType.javaString "object_type" m.objectType
    ++ optSegmentBy formatDouble "similarity_score" m.similarityScore
    ++ optSegment "similarity_measure" m.similarityMeasure
    ++ optSegment "comment" m.comment
    ++ extSegment m.extensions
    ++ "))"

/-- Template lines 79-91, the max bound guard: the check is emitted only
when maximum_value is Jinja-truthy, that is present and nonzero. -/
def maxRejects (maxValue : Option ℚ) (value : ℚ) : Bool :=
  match maxValue with
  | none => false
  | some mx => decide (mx ≠ 0) && decide (mx < value)

/-- Template lines 79-91, the min bound guard: the check is emitted
whenever minimum_value is not none, zero included. -/
def minRejects (minValue : Option ℚ) (value : ℚ) : Bool :=
  match minValue with
  | none => false
  | some mn => decide (value < mn)

/-- Template lines 79-91: the generated constrained setter.  Rejects a
value above an emitted maximum or below an emitted minimum with an
IllegalArgumentException, and stores the value otherwise. -/
def setConstrained (slot : String) (minValue maxValue : Option ℚ) (value : ℚ) :
    Except String ℚ :=
  if maxRejects maxValue value then Except.error ("Invalid value for " ++ slot)
  else if minRejects minValue value then Except.error ("Invalid value for " ++ slot)
  else Except.ok value

/-- Template lines 63-69: the field type chain.  The five specially
recognized ranges are tried first, then the reserved slot name curie_map,
and any other range falls through to the type computed by the base
generator. -/
def javaFieldType (slotName slotRange baseType : String) : String :=
  if slotRange = "date" then "LocalDate"
  else if slotRange = "mapping_cardinality_enum" then "MappingCardinality"
  else if slotRange = "entity_type_enum" then "EntityType"
  else if slotRange = "predicate_modifier_enum" then "PredicateModifier"
  else if slotRange = "sssom_version_enum" then "Version"
  else if slotName = "curie_map" then "Map<String,String>"
  else baseType

/-- Two permuted lists have the same insertion sort, for any total,
transitive, antisymmetric decidable order. -/
theorem insertionSort_eq_of_perm {α : Type} {r : α → α → Prop} [DecidableRel r]
    [IsTotal α r] [IsTrans α r] [IsAntisymm α r] {l₁ l₂ : List α} (h : l₁.Perm l₂) :
    List.insertionSort r l₁ = List.insertionSort r l₂ :=
  List.eq_of_perm_of_sorted
    ((List.perm_insertionSort r l₁).trans (h.trans (List.perm_insertionSort r l₂).symm))
    (List.sorted_insertionSort r l₁) (List.sorted_insertionSort r l₂)

/-- The size guard at template line 248 does not change the result: a list
of at most one element is its own insertion sort. -/
theorem sortIfMany_eq_insertionSort (l : List String) :
    sortIfMany l = List.insertionSort (fun a b => a ≤ b) l := by
  match l with
  | [] => rfl
  | [a] => rfl
  | a :: b :: t =>
      simp [sortIfMany, List.length_cons]

/-- Sorting a multivalued field is invariant under permutation of the
insertion order. -/
theorem sortIfMany_eq_of_perm {l₁ l₂ : List String} (h : l₁.Perm l₂) :
    sortIfMany l₁ = sortIfMany l₂ := by
  rw [sortIfMany_eq_insertionSort, sortIfMany_eq_insertionSort]
  exact insertionSort_eq_of_perm h

/-- A permutation with duplicate-free keys sorts by key to the same entry
list: weak key sortedness plus distinct keys forces strict key
sortedness, and a strictly key-sorted permutation class has a unique
representative. -/
theorem sortExtensions_eq_of_perm {l₁ l₂ : List (String × String)} (h : l₁.Perm l₂)
    (hnd : (l₁.map Prod.fst).Nodup) : sortExtensions l₁ = sortExtensions l₂ := by
  have p₁ : (sortExtensions l₁).Perm l₁ := List.perm_insertionSort keyLe l₁
  have p₂ : (sortExtensions l₂).Perm l₂ := List.perm_insertionSort keyLe l₂
  have hnd₂ : (l₂.map Prod.fst).Nodup := ((h.map Prod.fst).nodup_iff).mp hnd
  have hk₁ : ((sortExtensions l₁).map Prod.fst).Nodup := ((p₁.map Prod.fst).nodup_iff).mpr hnd
  have hk₂ : ((sortExtensions l₂).map Prod.fst).Nodup := ((p₂.map Prod.fst).nodup_iff).mpr hnd₂
  have hs₁ : (sortExtensions l₁).Pairwise keyLe := List.sorted_insertionSort keyLe l₁
  have hs₂ : (sortExtensions l₂).Pairwise keyLe := List.sorted_insertionSort keyLe l₂
  have hne₁ : (sortExtensions l₁).Pairwise (fun a b => a.1 ≠ b.1) := (List.pairwise_map).mp hk₁
  have hne₂ : (sortExtensions l₂).Pairwise (fun a b => a.1 ≠ b.1) := (List.pairwise_map).mp hk₂
  have hlt₁ : (sortExtensions l₁).Sorted keyLt :=
    (hs₁.and hne₁).imp fun hab => lt_of_le_of_ne hab.1 hab.2
  have hlt₂ : (sortExtensions l₂).Sorted keyLt :=
    (hs₂.and hne₂).imp fun hab => lt_of_le_of_ne hab.1 hab.2
  exact List.eq_of_perm_of_sorted (p₁.trans (h.trans p₂.symm)) hlt₁ hlt₂

/-- Fields of an inverted mapping that the claims compare: every field
outside the predicate, the subject and object pairs and the cardinality. -/
def invertFrame (m' m : Mapping) : Prop :=
  m'.recordId = m.recordId
  ∧ m'.predicateModifier = m.predicateModifier
  ∧ m'.mappingJustification = m.mappingJustification
  ∧ m'.authorId = m.authorId
  ∧ m'.reviewerId = m.reviewerId
  ∧ m'.mappingDate = m.mappingDate
  ∧ m'.confidence = m.confidence
  ∧ m'.similarityScore = m.similarityScore
  ∧ m'.similarityMeasure = m.similarityMeasure
  ∧ m'.comment = m.comment
  ∧ m'.extensions = m.extensions

/-- Equality on every subject and object paired field. -/
def pairedFieldsEq (m' m : Mapping) : Prop :=
  m'.subjectId = m.subjectId
  ∧ m'.objectId = m.objectId
  ∧ m'.subjectLabel = m.subjectLabel
  ∧ m'.objectLabel = m.objectLabel
  ∧ m'.subjectCategory = m.subjectCategory
  ∧ m'.objectCategory = m.objectCategory
  ∧ m'.subjectType = m.subjectType
  ∧ m'.objectType = m.objectType

/-- Helper: a successful explicit inversion carries all frame fields over
unchanged. -/
theorem invert_some_frame {m m' : Mapping} {p : Option String}
    (h : m.invert p = some m') : invertFrame m' m := by
  match p with
  | none => exact absurd h (by simp [Mapping.invert])
  | some q =>
      have h' : ({ m with
        predicateId := some q
        subjectId := m.objectId
        objectId := m.subjectId
        subjectLabel := m.objectLabel
        objectLabel := m.subjectLabel
        subjectCategory := m.objectCategory
        objectCategory := m.subjectCategory
        subjectType := m.objectType
        objectType := m.subjectType
        mappingCardinality := m.mappingCardinality.map MappingCardinality.getInverse } : Mapping)
          = m' := by
        simpa [Mapping.invert] using h
      subst h'
      exact ⟨rfl, rfl, rfl, rfl, rfl, rfl, rfl, rfl, rfl, rfl, rfl⟩

/-- Sample mapping with a directional predicate, used as concrete input. -/
def broadSample : Mapping :=
  { subjectId := some "A:1", objectId := some "B:2",
    subjectLabel := some "alpha", objectLabel := some "beta",
    predicateId := some "skos:broadMatch" }

/-- Sample mapping with a self-inverse predicate. -/
def exactSample : Mapping :=
  { subjectId := some "A:1", objectId := some "B:2",
    predicateId := some "skos:exactMatch",
    mappingJustification := some "semapv:ManualMappingCuration",
    similarityScore := some (4 / 5),
    authorId := some ["orcid:1"],
    extensions := some [("k1", "v1")] }

/-- C1 counterexample: on a record whose predicate skos:broadMatch is
invertible in the table, applying invert with the inverse predicate to the
result of invert with skos:broadMatch leaves the predicate at
skos:narrowMatch, not restored to skos:broadMatch. -/
theorem invert_roundtrip_predicate_cex :
    CommonPredicate.fromString broadSample.predicateId = some CommonPredicate.skosBroadMatch
    ∧ CommonPredicate.skosBroadMatch.isInvertible = true
    ∧ CommonPredicate.skosBroadMatch.getInverse = "skos:narrowMatch"
    ∧ ((broadSample.invert (some "skos:broadMatch")).bind
        (fun x => x.invert (some CommonPredicate.skosBroadMatch.getInverse))).map
          Mapping.predicateId = some (some "skos:narrowMatch")
    ∧ some "skos:narrowMatch" ≠ broadSample.predicateId := by
  refine ⟨rfl, rfl, rfl, rfl, by decide⟩

/-- C1 (amended): for every record r whose predicate p is invertible in
the table, invertWith(inverseOf(p)) applied to invertWith(p)(r) yields a
record equal to r in every subject and object paired field, with the
predicate set to inverseOf(p); it is restored to p exactly when p is
self-inverse in the table. -/
theorem invert_roundtrip_pairs (m : Mapping) (p : String) (c : CommonPredicate)
    (h₁ : CommonPredicate.fromString (some p) = some c)
    (h₂ : c.isInvertible = true)
    (h₃ : m.predicateId = some p) :
    ∃ m₁ m₂, m.invert (some p) = some m₁
      ∧ m₁.invert (some c.getInverse) = some m₂
      ∧ pairedFieldsEq m₂ m
      ∧ m₂.predicateId = some c.getInverse :=
  ⟨_, _, rfl, rfl, ⟨rfl, rfl, rfl, rfl, rfl, rfl, rfl, rfl⟩, rfl⟩

/-- C1 witness: the amended claim applied to a concrete record with the
invertible predicate skos:exactMatch. -/
theorem invert_roundtrip_pairs_witness :
    CommonPredicate.fromString (some "skos:exactMatch") = some CommonPredicate.skosExactMatch
    ∧ CommonPredicate.skosExactMatch.isInvertible = true
    ∧ exactSample.predicateId = some "skos:exactMatch"
    ∧ ∃ m₁ m₂, exactSample.invert (some "skos:exactMatch") = some m₁
        ∧ m₁.invert (some CommonPredicate.skosExactMatch.getInverse) = some m₂
        ∧ pairedFieldsEq m₂ exactSample
        ∧ m₂.predicateId = some CommonPredicate.skosExactMatch.getInverse :=
  ⟨rfl, rfl, rfl,
    invert_roundtrip_pairs exactSample "skos:exactMatch" CommonPredicate.skosExactMatch
      rfl rfl rfl⟩

/-- C5: both inversion entry points are pure functions from the input
record to a fresh record; whenever they succeed, every field other than
the predicate, the swapped subject and object pairs and the cardinality
(extensions, similarity metrics, provenance) is carried over unchanged. -/
theorem invert_frame_spec (m m' : Mapping) (p : Option String) :
    (m.invert p = some m' → invertFrame m' m)
    ∧ (m.invertAuto = some m' → invertFrame m' m) := by
  constructor
  · exact fun h => invert_some_frame h
  · intro h
    unfold Mapping.invertAuto at h
    split at h
    · exact absurd h (by simp)
    · split at h
      · exact invert_some_frame h
      · exact absurd h (by simp)

/-- C5 witness: the frame condition applied to a concrete successful
inversion. -/
theorem invert_frame_spec_witness :
    (broadSample.invert (some "skos:narrowMatch")).isSome = true
    ∧ ∀ m', broadSample.invert (some "skos:narrowMatch") = some m' → invertFrame m' broadSample :=
  ⟨rfl, fun m' h => (invert_frame_spec broadSample m' (some "skos:narrowMatch")).1 h⟩

/-- C6: invert with an explicit predicate returns no result exactly when
the predicate is absent; automatic inversion returns no result exactly
when the current predicate is unknown to the directional-relation table or
marked non-invertible there, and otherwise equals inversion with the
recorded inverse predicate. -/
theorem invert_failure_spec (m : Mapping) (p : Option String) :
    ((m.invert p).isNone = true ↔ p = none)
    ∧ ((m.invertAuto).isNone = true ↔
        (CommonPredicate.fromString m.predicateId = none
          ∨ ∃ c, CommonPredicate.fromString m.predicateId = some c ∧ c.isInvertible = false))
    ∧ (∀ c, CommonPredicate.fromString m.predicateId = some c → c.isInvertible = true →
        m.invertAuto = m.invert (some c.getInverse)) := by
  refine ⟨?_, ?_, ?_⟩
  · cases p <;> simp [Mapping.invert]
  · cases hc : CommonPredicate.fromString m.predicateId with
    | none => simp [Mapping.invertAuto, hc]
    | some c =>
        cases hi : c.isInvertible <;>
          simp [Mapping.invertAuto, hc, hi, Mapping.invert]
  · intro c hc hi
    simp [Mapping.invertAuto, hc, hi]

/-- C6 witness: the characterization applied to a concrete record with an
invertible predicate. -/
theorem invert_failure_spec_witness :
    CommonPredicate.fromString exactSample.predicateId = some CommonPredicate.skosExactMatch
    ∧ CommonPredicate.skosExactMatch.isInvertible = true
    ∧ exactSample.invertAuto
        = exactSample.invert (some CommonPredicate.skosExactMatch.getInverse) :=
  ⟨rfl, rfl,
    (invert_failure_spec exactSample none).2.2 CommonPredicate.skosExactMatch rfl rfl⟩

/-- C2: the canonical encoder output is invariant under permuting the
insertion order of the multivalued fields and of the extension-mapping
entries (entry keys being distinct, as in a map). -/
theorem toSExpr_perm_invariant (m : Mapping) (a₁ a₂ rv₁ rv₂ : List String)
    (e₁ e₂ : List (String × String))
    (ha : a₁.Perm a₂) (hr : rv₁.Perm rv₂) (he : e₁.Perm e₂)
    (hnd : (e₁.map Prod.fst).Nodup) :
    Mapping.toSExpr { m with authorId := some a₁, reviewerId := some rv₁,
                             extensions := some e₁ }
      = Mapping.toSExpr { m with authorId := some a₂, reviewerId := some rv₂,
                                 extensions := some e₂ } := by
  have h₁ : sortIfMany a₁ = sortIfMany a₂ := sortIfMany_eq_of_perm ha
  have h₂ : sortIfMany rv₁ = sortIfMany rv₂ := sortIfMany_eq_of_perm hr
  have h₃ : sortExtensions e₁ = sortExtensions e₂ := sortExtensions_eq_of_perm he hnd
  simp only [Mapping.toSExpr, multiSegment, extSegment]
  rw [h₁, h₂, h₃]

/-- Concrete record for the C2 witness, first insertion order. -/
def permSampleA : Mapping :=
  { broadSample with authorId := some ["orcid:2", "orcid:1"],
                     reviewerId := some ["r:1"],
                     extensions := some [("k2", "v2"), ("k1", "v1")] }

/-- Concrete record for the C2 witness, second insertion order. -/
def permSampleB : Mapping :=
  { broadSample with authorId := some ["orcid:1", "orcid:2"],
                     reviewerId := some ["r:1"],
                     extensions := some [("k1", "v1"), ("k2", "v2")] }

/-- C2 witness: two concrete records whose author list and extension
entries are permutations of each other encode identically. -/
theorem toSExpr_perm_invariant_witness :
    (["orcid:2", "orcid:1"] : List String).Perm ["orcid:1", "orcid:2"]
    ∧ ([("k2", "v2"), ("k1", "v1")] : List (String × String)).Perm [("k1", "v1"), ("k2", "v2")]
    ∧ (([("k2", "v2"), ("k1", "v1")] : List (String × String)).map Prod.fst).Nodup
    ∧ Mapping.toSExpr permSampleA = Mapping.toSExpr permSampleB :=
  ⟨by decide, by decide, by decide,
    toSExpr_perm_invariant broadSample ["orcid:2", "orcid:1"] ["orcid:1", "orcid:2"]
      ["r:1"] ["r:1"] [("k2", "v2"), ("k1", "v1")] [("k1", "v1"), ("k2", "v2")]
      (by decide) (List.Perm.refl _) (by decide) (by decide)⟩

/-- C4: the encoder never depends on the record_id or mapping_cardinality
fields, set or not; an unset field contributes the empty string to the
output, never an empty or null tag; the record with every field unset
encodes to the bare outer group. -/
theorem toSExpr_unset_and_internal (m : Mapping) (rid : Option String)
    (card : Option MappingCardinality) (tag : String) :
    Mapping.toSExpr { m with recordId := rid, mappingCardinality := card }
        = Mapping.toSExpr m
    ∧ optSegment tag none = ""
    ∧ (∀ {α : Type} (f : α → String), optSegmentBy f tag none = "")
    ∧ multiSegment tag none = ""
    ∧ extSegment none = ""
    ∧ Mapping.toSExpr {} = "(7:mapping())" :=
  ⟨rfl, rfl, fun _ => rfl, rfl, rfl, rfl⟩

/-- C3 counterexample: with no minimum and a present maximum of zero, the
template emits no maximum check (the Jinja guard tests truthiness and zero
is falsy), so the value one, strictly greater than the maximum, is stored
instead of rejected. -/
theorem setConstrained_zero_max_cex :
    setConstrained "confidence" none (some 0) 1 = Except.ok 1 ∧ (0 : ℚ) < 1 :=
  ⟨rfl, by norm_num⟩

/-- C3 (amended): assignment fails exactly when the value is strictly
greater than a maximum bound that is present and nonzero (the maximum
guard is emitted on truthiness), or strictly less than a present minimum
bound, zero included (the minimum guard is emitted on presence); otherwise
the value is stored.  For a field with minimum 0 and maximum 1, assigning
0 or 1 succeeds and assigning -0.0001 or 1.0001 fails. -/
theorem setConstrained_bounds_spec :
    (∀ (slot : String) (mn mx : Option ℚ) (v : ℚ),
        setConstrained slot mn mx v = Except.error ("Invalid value for " ++ slot)
          ↔ ((∃ M, mx = some M ∧ M ≠ 0 ∧ M < v) ∨ (∃ m0, mn = some m0 ∧ v < m0)))
    ∧ setConstrained "confidence" (some 0) (some 1) 0 = Except.ok 0
    ∧ setConstrained "confidence" (some 0) (some 1) 1 = Except.ok 1
    ∧ setConstrained "confidence" (some 0) (some 1) (10001 / 10000)
        = Except.error "Invalid value for confidence"
    ∧ setConstrained "confidence" (some 0) (some 1) (-(1 / 10000))
        = Except.error "Invalid value for confidence" := by
  refine ⟨?_, rfl, rfl,
    by norm_num [setConstrained, maxRejects, minRejects]; rfl,
    by norm_num [setConstrained, maxRejects, minRejects]; rfl⟩
  intro slot mn mx v
  unfold setConstrained
  by_cases hmax : maxRejects mx v = true
  · rw [if_pos hmax]
    simp only [true_iff]
    left
    match mx, hmax with
    | some M, hmax =>
        have h2 : ¬M = 0 ∧ M < v := by simpa [maxRejects] using hmax
        exact ⟨M, rfl, h2.1, h2.2⟩
  · rw [if_neg hmax]
    by_cases hmin : minRejects mn v = true
    · rw [if_pos hmin]
      simp only [true_iff]
      right
      match mn, hmin with
      | some m0, hmin => exact ⟨m0, rfl, by simpa [minRejects] using hmin⟩
    · rw [if_neg hmin]
      constructor
      · intro h
        exact absurd h (by simp)
      · rintro (⟨M, hM, hM0, hMv⟩ | ⟨m0, hm, hmv⟩)
        · exact absurd (by simp [maxRejects, hM, hM0, hMv]) hmax
        · exact absurd (by simp [minRejects, hm, hmv]) hmin

/-- C7 counterexample: a slot whose range is recognized by none of the
template branches resolves to the base generator type with no failure, so
no UnknownRange error exists at plan-resolution time. -/
theorem javaFieldType_unknown_range_cex :
    javaFieldType "foo" "mystery_range" "OpaqueBase" = "OpaqueBase"
    ∧ "mystery_range" ≠ "date"
    ∧ "mystery_range" ≠ "mapping_cardinality_enum"
    ∧ "mystery_range" ≠ "entity_type_enum"
    ∧ "mystery_range" ≠ "predicate_modifier_enum"
    ∧ "mystery_range" ≠ "sssom_version_enum" := by
  refine ⟨rfl, by decide, by decide, by decide, by decide, by decide⟩

/-- C7 (amended): a slot whose range is not one of the recognized ranges
and whose name is not curie_map is not an error: the type chain passes the
base generator type through unchanged, deferring nothing and aborting
nothing. -/
theorem javaFieldType_passthrough (slotName slotRange baseType : String)
    (h₁ : slotRange ≠ "date")
    (h₂ : slotRange ≠ "mapping_cardinality_enum")
    (h₃ : slotRange ≠ "entity_type_enum")
    (h₄ : slotRange ≠ "predicate_modifier_enum")
    (h₅ : slotRange ≠ "sssom_version_enum")
    (h₆ : slotName ≠ "curie_map") :
    javaFieldType slotName slotRange baseType = baseType := by
  simp [javaFieldType, h₁, h₂, h₃, h₄, h₅, h₆]

/-- C7 witness: the passthrough applied to a concrete unrecognized range. -/
theorem javaFieldType_passthrough_witness :
    javaFieldType "foo" "mystery_range" "OpaqueBase" = "OpaqueBase" :=
  javaFieldType_passthrough "foo" "mystery_range" "OpaqueBase"
    (by decide) (by decide) (by decide) (by decide) (by decide) (by decide)

/-- C8 counterexample: a slot named curie_map whose declared range is date
is typed by the earlier date branch, not as a map of string to string. -/
theorem javaFieldType_curie_map_date_cex :
    javaFieldType "curie_map" "date" "Map<String,String>" = "LocalDate"
    ∧ "LocalDate" ≠ "Map<String,String>" :=
  ⟨rfl, by decide⟩

/-- C8 (amended): a slot named curie_map is typed as a map of string to
string whenever its declared range is none of the five specially
recognized ranges, which are tried before the slot name. -/
theorem javaFieldType_curie_map_precedence (slotRange baseType : String)
    (h₁ : slotRange ≠ "date")
    (h₂ : slotRange ≠ "mapping_cardinality_enum")
    (h₃ : slotRange ≠ "entity_type_enum")
    (h₄ : slotRange ≠ "predicate_modifier_enum")
    (h₅ : slotRange ≠ "sssom_version_enum") :
    javaFieldType "curie_map" slotRange baseType = "Map<String,String>" := by
  simp [javaFieldType, h₁, h₂, h₃, h₄, h₅]

/-- C8 witness: the curie_map rule applied to the declared range string. -/
theorem javaFieldType_curie_map_precedence_witness :
    javaFieldType "curie_map" "string" "String" = "Map<String,String>" :=
  javaFieldType_curie_map_precedence "string" "String"
    (by decide) (by decide) (by decide) (by decide) (by decide)

/-- C9: the lazy accessors materialize an empty list or map only when the
field is unset and the flag is true; in every other case the field is
returned unchanged and the record is untouched, so a populated field is
never replaced or reset. -/
theorem lazy_accessor_spec (m : Mapping) (b : Bool) (l : List String)
    (e : List (String × String)) :
    (m.authorId = none → m.getAuthorId true = (some [], { m with authorId := some [] }))
    ∧ m.getAuthorId false = (m.authorId, m)
    ∧ (m.authorId = some l → m.getAuthorId b = (some l, m))
    ∧ (m.extensions = none → m.getExtensions true = (some [], { m with extensions := some [] }))
    ∧ m.getExtensions false = (m.extensions, m)
    ∧ (m.extensions = some e → m.getExtensions b = (some e, m)) := by
  refine ⟨?_, ?_, ?_, ?_, ?_, ?_⟩
  · intro h; simp [Mapping.getAuthorId, h]
  · simp [Mapping.getAuthorId]
  · intro h; simp [Mapping.getAuthorId, h]
  · intro h; simp [Mapping.getExtensions, h]
  · simp [Mapping.getExtensions]
  · intro h; simp [Mapping.getExtensions, h]

/-- C9 witness: a record with an unset author list is initialized by the
flagged accessor, and a populated extensions map is returned untouched. -/
theorem lazy_accessor_spec_witness :
    broadSample.authorId = none
    ∧ broadSample.getAuthorId true = (some [], { broadSample with authorId := some [] })
    ∧ exactSample.extensions = some [("k1", "v1")]
    ∧ exactSample.getExtensions true = (some [("k1", "v1")], exactSample) :=
  ⟨rfl,
    (lazy_accessor_spec broadSample true [] []).1 rfl,
    rfl,
    (lazy_accessor_spec exactSample true [] [("k1", "v1")]).2.2.2.2.2 rfl⟩

/-- C10: a mapping is unmapped exactly when its subject id or its object
id is the NoTermFound constant; with both identifiers unset the test is
false, because the null-safe equality never matches null. -/
theorem isUnmapped_spec (m : Mapping) :
    (m.isUnmapped = true ↔
      (m.subjectId = some Constants.NoTermFound ∨ m.objectId = some Constants.NoTermFound))
    ∧ (m.subjectId = none → m.objectId = none → m.isUnmapped = false) := by
  constructor
  · simp [Mapping.isUnmapped]
  · intro h₁ h₂
    simp [Mapping.isUnmapped, h₁, h₂]

/-- C10 witness: the both-identifiers-unset record is not unmapped, and a
record whose object id is NoTermFound is unmapped. -/
theorem isUnmapped_spec_witness :
    ({} : Mapping).subjectId = none
    ∧ ({} : Mapping).isUnmapped = false
    ∧ ({ objectId := some "sssom:NoTermFound" } : Mapping).isUnmapped = true :=
  ⟨rfl,
    (isUnmapped_spec {}).2 rfl rfl,
    (isUnmapped_spec { objectId := some "sssom:NoTermFound" }).1.mpr (Or.inr rfl)⟩
